import Mathlib

/-!
Shallow embedding of the rustyboy memory/display core (src/gpu.rs, src/mmu.rs).

Machine integers are modelled as `Nat` with explicit truncation (`% 256` for
`as u8` casts, bitwise masks written exactly as in the source).  Byte stores
(`[u8; N]` arrays and the working/zero-page RAM) are modelled as total
functions `Nat → Nat`; Rust's panicking array indexing is made explicit with a
`PResult` value whose `crash` constructor models a `panic!`/`unreachable!`
(format arguments of the panic messages are elided from the strings).  The
mpsc screen-data channel is modelled as the list `sent` of delivered buffers.
The `while` loop of `GPU::run_cycle` is given an explicit fuel parameter:
`none` means the loop has not terminated within `fuel` iterations.
-/

/-- Result of a Rust computation that may `panic!`: `ok` is a normal return,
`crash` models a process-terminating panic with its message. -/
inductive PResult (α : Type) where
  | ok (v : α)
  | crash (msg : String)

/-- Sequencing of possibly-panicking computations (a panic aborts the rest). -/
def PResult.bind {α β : Type} : PResult α → (α → PResult β) → PResult β
  | .ok v, f => f v
  | .crash m, _ => .crash m

/-- Mapping over a possibly-panicking computation. -/
def PResult.map {α β : Type} (f : α → β) : PResult α → PResult β
  | .ok v => .ok (f v)
  | .crash m => .crash m

/-- Pointwise update of a function-modelled byte store. -/
def upd (f : Nat → Nat) (i v : Nat) : Nat → Nat :=
  fun j => if j = i then v else f j

/-- Modelled from the spec: `src/screen.rs` is not among the analyzed sources;
the spec fixes the frame as 160 pixel columns (columns 0..159). -/
def Screen.WIDTH : Nat := 160

/-- Modelled from the spec: 144 visible lines (lines 0..143). -/
def Screen.HEIGHT : Nat := 144

/-- Modelled from the spec: `src/serial.rs` is not among the analyzed sources;
the spec describes it only as a serial-link byte store for addresses
0xFF01-0xFF02, forwarded verbatim by the bus. -/
structure Serial where
  data : Nat
  control : Nat

/-- Modelled from the spec: serial read, a byte store lookup. -/
def Serial.read (s : Serial) (addr : Nat) : Nat :=
  if addr = 0xFF01 then s.data else s.control

/-- Modelled from the spec: serial write, a byte store update. -/
def Serial.write (s : Serial) (addr value : Nat) : Serial :=
  if addr = 0xFF01 then { s with data := value } else { s with control := value }

/-- `color_from_dot_data` of src/gpu.rs: note the match arms are the *hex*
literals 0x00, 0x01, 0x10 exactly as written in the source. -/
def color_from_dot_data (dot_data : Nat) : Nat :=
  if dot_data = 0x00 then 255
  else if dot_data = 0x01 then 192
  else if dot_data = 0x10 then 96
  else 0

/-- `build_palette_map` of src/gpu.rs: the masks are the hex literal 0x11
exactly as written in the source. -/
def build_palette_map (palette_layout : Nat) : List Nat :=
  [ color_from_dot_data (palette_layout &&& 0x11),
    color_from_dot_data ((palette_layout >>> 2) &&& 0x11),
    color_from_dot_data ((palette_layout >>> 4) &&& 0x11),
    color_from_dot_data (palette_layout >>> 6) ]

/-- The GPU state of src/gpu.rs.  `sent` models the receiving end of the
`screen_data_sender` channel (the list of all buffers delivered so far). -/
structure GPU where
  next_screen_buffer : Nat → Nat
  video_ram : Nat → Nat
  bg_palette : Nat
  bg_palette_map : List Nat
  obj_palette_0 : Nat
  obj_palette_1 : Nat
  oam : Nat → Nat
  lcd_control : Nat
  stat : Nat
  scy : Nat
  scx : Nat
  win_y : Nat
  win_x : Nat
  ly : Nat
  render_clock : Nat
  sent : List (Nat → Nat)
  interrupt : Nat

/-- `GPU::OAM_SIZE`. -/
def GPU.OAM_SIZE : Nat := 0xA0

/-- `VIDEO_RAM_SIZE` of src/gpu.rs. -/
def VIDEO_RAM_SIZE : Nat := 0x2000

/-- `GPU::new` of src/gpu.rs (the channel starts with no delivered buffer). -/
def GPU.new : GPU :=
  { next_screen_buffer := fun _ => 0
    video_ram := fun _ => 0
    bg_palette := 0
    bg_palette_map := build_palette_map 0
    obj_palette_0 := 0
    obj_palette_1 := 0
    oam := fun _ => 0
    lcd_control := 0x91
    stat := 0
    scy := 0
    scx := 0
    win_y := 0
    win_x := 0
    ly := 0
    render_clock := 0
    sent := []
    interrupt := 0 }

/-- `GPU::is_lcd_on`. -/
def GPU.is_lcd_on (g : GPU) : Bool := g.lcd_control &&& 0x80 > 0

/-- `GPU::read_oam`: the index is the address masked with 0xFF; the backing
array has 160 entries, so Rust's indexing panics when the masked index is
not below `GPU::OAM_SIZE`. -/
def GPU.read_oam (g : GPU) (addr : Nat) : PResult Nat :=
  if addr &&& 0xFF < GPU.OAM_SIZE then .ok (g.oam (addr &&& 0xFF))
  else .crash "index out of bounds"

/-- `GPU::write_oam` (same masking and bounds behaviour as `read_oam`). -/
def GPU.write_oam (g : GPU) (addr value : Nat) : PResult GPU :=
  if addr &&& 0xFF < GPU.OAM_SIZE then
    .ok { g with oam := upd g.oam (addr &&& 0xFF) value }
  else .crash "index out of bounds"

/-- `GPU::read_video_ram`: index masked with 0x1FFF into a 0x2000-byte array
(the bounds check is kept explicit, mirroring Rust's checked indexing). -/
def GPU.read_video_ram (g : GPU) (addr : Nat) : PResult Nat :=
  if addr &&& 0x1FFF < VIDEO_RAM_SIZE then .ok (g.video_ram (addr &&& 0x1FFF))
  else .crash "index out of bounds"

/-- `GPU::write_video_ram`. -/
def GPU.write_video_ram (g : GPU) (addr value : Nat) : PResult GPU :=
  if addr &&& 0x1FFF < VIDEO_RAM_SIZE then
    .ok { g with video_ram := upd g.video_ram (addr &&& 0x1FFF) value }
  else .crash "index out of bounds"

/-- `GPU::read_control` of src/gpu.rs: `unreachable!`/`panic!` arms are
modelled as `crash` (panic format arguments elided). -/
def GPU.read_control (g : GPU) (addr : Nat) : PResult Nat :=
  if addr = 0xFF40 then .ok g.lcd_control
  else if addr = 0xFF41 then .ok g.stat
  else if addr = 0xFF42 then .ok g.scy
  else if addr = 0xFF43 then .ok g.scx
  else if addr = 0xFF44 then .ok g.ly
  else if addr = 0xFF46 then .crash "DMA Address is write only"
  else if addr = 0xFF47 then .ok g.bg_palette
  else if addr = 0xFF48 then .ok g.obj_palette_0
  else if addr = 0xFF49 then .ok g.obj_palette_1
  else if addr = 0xFF4A then .ok g.win_y
  else if addr = 0xFF4B then .ok g.win_x
  else .crash "Unknown GPU control read operation"

/-- `GPU::write_control` of src/gpu.rs: writing 0xFF44 is a no-op (read
only); writing 0xFF47 also recomputes the cached palette map. -/
def GPU.write_control (g : GPU) (addr value : Nat) : PResult GPU :=
  if addr = 0xFF40 then .ok { g with lcd_control := value }
  else if addr = 0xFF41 then .ok { g with stat := value }
  else if addr = 0xFF42 then .ok { g with scy := value }
  else if addr = 0xFF43 then .ok { g with scx := value }
  else if addr = 0xFF44 then .ok g
  else if addr = 0xFF46 then .crash "DMA write handled in mmu.rs"
  else if addr = 0xFF47 then
    .ok { g with bg_palette := value, bg_palette_map := build_palette_map value }
  else if addr = 0xFF48 then .ok { g with obj_palette_0 := value }
  else if addr = 0xFF49 then .ok { g with obj_palette_1 := value }
  else if addr = 0xFF4A then .ok { g with win_y := value }
  else if addr = 0xFF4B then .ok { g with win_x := value }
  else .crash "Unknown GPU control write operation"

/-- `GPU::read_byte_video_ram` (private helper used by the renderer); the
masked index is always below 0x2000, so this access cannot panic and is
modelled total. -/
def GPU.read_byte_video_ram (g : GPU) (addr : Nat) : Nat :=
  g.video_ram (addr &&& 0x1FFF)

/-- `GPU::bg_tile_data_addr`. -/
def GPU.bg_tile_data_addr (g : GPU) : Nat :=
  if g.lcd_control &&& 0x10 > 0 then 0x8000 else 0x8800

/-- `GPU::bg_tile_map_addr`. -/
def GPU.bg_tile_map_addr (g : GPU) : Nat :=
  if g.lcd_control &&& 0x08 > 0 then 0x9C00 else 0x9800

/-- The tile-address offset computed in `GPU::render_background` (src/gpu.rs
lines 173-181): unsigned `tile_number * 16` in 0x8000 mode, otherwise
`(i16::from(tile_number as i8) + 128) as u16 * 16`.  The `as i8` cast of a
byte value t is t for t < 128 and t - 256 otherwise. -/
def tile_addr_offset (bg_tile_data_addr tile_number : Nat) : Nat :=
  if bg_tile_data_addr = 0x8000 then tile_number * 16
  else
    (Int.toNat ((if tile_number < 128 then (tile_number : Int)
                 else (tile_number : Int) - 256) + 128)) * 16

/-- The resolved tile data address of `GPU::render_background`:
`bg_tile_data_addr + tile_addr_offset`. -/
def GPU.tile_addr (g : GPU) (tile_number : Nat) : Nat :=
  g.bg_tile_data_addr + tile_addr_offset g.bg_tile_data_addr tile_number

/-- `GPU::render_screen`: the in-progress buffer is cloned (`to_vec`) and
sent through the channel; a send failure is only logged, so the model
always appends the delivered copy. -/
def GPU.render_screen (g : GPU) : GPU :=
  { g with sent := g.sent ++ [g.next_screen_buffer] }

/-- `GPU::increment_line`: advance `ly` modulo 154; on every resulting line
at or above 144 the screen is rendered, and on exactly 144 the V-Blank
interrupt bit is also set. -/
def GPU.increment_line (g : GPU) : GPU :=
  let g1 := { g with ly := (g.ly + 1) % 154 }
  if 144 ≤ g1.ly then
    if g1.ly = 144 then ({ g1 with interrupt := g1.interrupt ||| 0x01 }).render_screen
    else g1.render_screen
  else g1

/-- `GPU::set_pixel_color_next_screen_buffer`: three consecutive byte writes
at `(ly * WIDTH + x) * 3` (always in bounds: callers have ly < 144 and
x < 160). -/
def GPU.set_pixel_color_next_screen_buffer (g : GPU) (x_pixel color : Nat) : GPU :=
  let base_addr := (g.ly * Screen.WIDTH + x_pixel) * 3
  let buf := upd (upd (upd g.next_screen_buffer base_addr color) (base_addr + 1) color) (base_addr + 2) color
  { g with next_screen_buffer := buf }

/-- The per-column body of the rendering loop of `GPU::render_background`
(src/gpu.rs lines 159-210); the values computed before the loop are passed
as parameters. -/
def GPU.render_pixel (g : GPU) (tm td bgy_tile bgy_pixel_in_tile x : Nat) : GPU :=
  let bgx := g.scx + x
  let bgx_tile := (bgx &&& 0xFF) >>> 3
  let bgx_pixel_in_tile := bgx &&& 0x07
  let tile_number_addr := tm + bgy_tile * 32 + bgx_tile
  let tile_number := g.read_byte_video_ram tile_number_addr
  let tile_addr := td + tile_addr_offset td tile_number
  let tile_line_addr := tile_addr + bgy_pixel_in_tile * 2
  let tile_line_data_1 := g.read_byte_video_ram tile_line_addr
  let tile_line_data_2 := g.read_byte_video_ram (tile_line_addr + 1)
  let pixel_in_line_mask := 1 <<< bgx_pixel_in_tile
  let pixel_data_1 := if tile_line_data_1 &&& pixel_in_line_mask > 0 then 1 else 0
  let pixel_data_2 := if tile_line_data_2 &&& pixel_in_line_mask > 0 then 2 else 0
  let palette_color_id := pixel_data_1 ||| pixel_data_2
  let color := g.bg_palette_map.getD palette_color_id 0
  g.set_pixel_color_next_screen_buffer x color

/-- `GPU::render_background`: no-op on lines at or above 144, otherwise
renders each of the 160 background pixels of the current line.
`scy.wrapping_add(ly)` is `(scy + ly) % 256`. -/
def GPU.render_background (g : GPU) : GPU :=
  if 144 ≤ g.ly then g
  else
    let tm := g.bg_tile_map_addr
    let td := g.bg_tile_data_addr
    let bgy := (g.scy + g.ly) % 256
    let bgy_tile := (bgy &&& 0xFF) >>> 3
    let bgy_pixel_in_tile := bgy &&& 0x07
    (List.range Screen.WIDTH).foldl (fun gg x => gg.render_pixel tm td bgy_tile bgy_pixel_in_tile x) g

/-- `GPU::process_cycles`: when the accumulated clock reaches 114 the source
returns `(render_clock + cycles - 114) as u8` as the number of used cycles,
resets the clock to 0, advances the line and renders; otherwise it
accumulates and returns `cycles as u8`. -/
def GPU.process_cycles (g : GPU) (cycles : Nat) : GPU × Nat :=
  if 114 ≤ g.render_clock + cycles then
    (((({ g with render_clock := 0 }).increment_line).render_background),
      (g.render_clock + cycles - 114) % 256)
  else
    ({ g with render_clock := g.render_clock + cycles }, cycles % 256)

/-- The `while cycles_to_process > 0` loop of `GPU::run_cycle`, with an
explicit fuel bound on the number of iterations; `none` means the loop has
not terminated within `fuel` iterations. -/
def GPU.run_cycle_loop : Nat → GPU → Nat → Option GPU
  | 0, g, t => if t = 0 then some g else none
  | fuel + 1, g, t =>
    if t = 0 then some g
    else GPU.run_cycle_loop fuel (g.process_cycles t).1 (t - (g.process_cycles t).2)

/-- `GPU::run_cycle`: immediate return when the LCD is off, otherwise the
cycle-consumption loop (with explicit fuel). -/
def GPU.run_cycle (g : GPU) (fuel cycles : Nat) : Option GPU :=
  if g.is_lcd_on then GPU.run_cycle_loop fuel g cycles else some g

/-- The MMU state of src/mmu.rs. -/
structure MMU where
  rom : List Nat
  wram : Nat → Nat
  zram : Nat → Nat
  gpu : GPU
  serial : Serial

/-- `MMU::read_byte` of src/mmu.rs: the match arms in source order.  The ROM
access indexes a `Vec` and panics when the address is not below its length. -/
def MMU.read_byte (m : MMU) (addr : Nat) : PResult Nat :=
  if addr ≤ 0x7FFF then
    (if h : addr < m.rom.length then .ok (m.rom.get ⟨addr, h⟩)
     else .crash "index out of bounds")
  else if addr ≤ 0x9FFF then m.gpu.read_video_ram addr
  else if addr ≤ 0xBFFF then .crash "MMU ERROR: Load from cart RAM not implemented"
  else if addr ≤ 0xFDFF then .ok (m.wram (addr &&& 0x1FFF))
  else if addr ≤ 0xFE9F then m.gpu.read_oam addr
  else if 0xFF01 ≤ addr ∧ addr ≤ 0xFF02 then .ok (m.serial.read addr)
  else if 0xFF40 ≤ addr ∧ addr ≤ 0xFF4B then m.gpu.read_control addr
  else if 0xFF80 ≤ addr ∧ addr ≤ 0xFFFF then .ok (m.zram (addr &&& 0x7F))
  else .ok 0

/-- `MMU::write_byte` of src/mmu.rs (the final `_ => ()` arm leaves the
machine unchanged). -/
def MMU.write_byte (m : MMU) (addr value : Nat) : PResult MMU :=
  if addr ≤ 0x7FFF then
    (if addr < m.rom.length then .ok { m with rom := m.rom.set addr value }
     else .crash "index out of bounds")
  else if addr ≤ 0x9FFF then
    (m.gpu.write_video_ram addr value).map fun gg => { m with gpu := gg }
  else if addr ≤ 0xBFFF then .crash "MMU ERROR: Write to cart RAM not implemented"
  else if addr ≤ 0xFDFF then .ok { m with wram := upd m.wram (addr &&& 0x1FFF) value }
  else if addr ≤ 0xFE9F then
    (m.gpu.write_oam addr value).map fun gg => { m with gpu := gg }
  else if 0xFF01 ≤ addr ∧ addr ≤ 0xFF02 then .ok { m with serial := m.serial.write addr value }
  else if 0xFF40 ≤ addr ∧ addr ≤ 0xFF4B then
    (m.gpu.write_control addr value).map fun gg => { m with gpu := gg }
  else if 0xFF80 ≤ addr ∧ addr ≤ 0xFFFF then .ok { m with zram := upd m.zram (addr &&& 0x7F) value }
  else .ok m

/-- `MMU::read_word`: little-endian composition of two byte reads. -/
def MMU.read_word (m : MMU) (addr : Nat) : PResult Nat :=
  (m.read_byte addr).bind fun lo =>
    (m.read_byte (addr + 1)).bind fun hi => .ok (lo ||| (hi <<< 8))

/-- `MMU::write_word`: low byte (`value & 0xFF`) at `addr`, high byte
(`(value >> 8) as u8`) at `addr + 1`. -/
def MMU.write_word (m : MMU) (addr value : Nat) : PResult MMU :=
  (m.write_byte addr (value &&& 0xFF)).bind fun m1 =>
    m1.write_byte (addr + 1) ((value >>> 8) % 256)

/-- A fresh MMU over an empty cartridge, used for concrete evaluations. -/
def MMU.new0 : MMU :=
  { rom := []
    wram := fun _ => 0
    zram := fun _ => 0
    gpu := GPU.new
    serial := { data := 0, control := 0 } }

/-!
Helper lemmas: the rendering loop only writes the in-progress buffer, and
the elementary step lemmas for the cycle loop.
-/

/-- One rendered pixel changes only the in-progress frame buffer. -/
theorem GPU.render_pixel_shape (g : GPU) (tm td yt yp x : Nat) :
    ∃ buf, g.render_pixel tm td yt yp x = { g with next_screen_buffer := buf } :=
  ⟨_, rfl⟩

/-- The whole per-line rendering fold changes only the in-progress buffer. -/
theorem foldl_render_pixel_shape (tm td yt yp : Nat) :
    ∀ (xs : List Nat) (g : GPU), ∃ buf,
      xs.foldl (fun gg x => gg.render_pixel tm td yt yp x) g
        = { g with next_screen_buffer := buf }
  | [], g => ⟨g.next_screen_buffer, rfl⟩
  | x :: xs, g => by
      obtain ⟨b1, h1⟩ := GPU.render_pixel_shape g tm td yt yp x
      obtain ⟨b2, h2⟩ := foldl_render_pixel_shape tm td yt yp xs (g.render_pixel tm td yt yp x)
      exact ⟨b2, by rw [List.foldl_cons, h2, h1]⟩

/-- `render_background` changes only the in-progress buffer. -/
theorem GPU.render_background_shape (g : GPU) :
    ∃ buf, g.render_background = { g with next_screen_buffer := buf } := by
  unfold GPU.render_background
  split
  · exact ⟨g.next_screen_buffer, rfl⟩
  · exact foldl_render_pixel_shape _ _ _ _ _ g

/-- `render_background` leaves the render clock alone. -/
theorem GPU.render_background_render_clock (g : GPU) :
    (g.render_background).render_clock = g.render_clock := by
  obtain ⟨b, h⟩ := g.render_background_shape
  rw [h]

/-- `render_background` delivers no frame. -/
theorem GPU.render_background_sent (g : GPU) :
    (g.render_background).sent = g.sent := by
  obtain ⟨b, h⟩ := g.render_background_shape
  rw [h]

/-- `render_background` leaves the interrupt flags alone. -/
theorem GPU.render_background_interrupt (g : GPU) :
    (g.render_background).interrupt = g.interrupt := by
  obtain ⟨b, h⟩ := g.render_background_shape
  rw [h]

/-- `increment_line` leaves the render clock alone. -/
theorem GPU.increment_line_render_clock (g : GPU) :
    (g.increment_line).render_clock = g.render_clock := by
  unfold GPU.increment_line GPU.render_screen
  dsimp only
  split_ifs <;> rfl

/-- `increment_line` delivers exactly one frame when the new line is 144 or
above, none otherwise. -/
theorem GPU.increment_line_sent (g : GPU) :
    (g.increment_line).sent
      = g.sent ++ (if 144 ≤ (g.ly + 1) % 154 then [g.next_screen_buffer] else []) := by
  unfold GPU.increment_line GPU.render_screen
  dsimp only
  split_ifs <;> simp

/-- `increment_line` sets the V-Blank interrupt bit exactly when the new
line is 144. -/
theorem GPU.increment_line_interrupt (g : GPU) :
    (g.increment_line).interrupt
      = if (g.ly + 1) % 154 = 144 then g.interrupt ||| 0x01 else g.interrupt := by
  unfold GPU.increment_line GPU.render_screen
  dsimp only
  split_ifs <;> first | rfl | omega

/-- The cycle loop at a zero budget returns immediately. -/
theorem run_cycle_loop_zero_t (fuel : Nat) (g : GPU) :
    GPU.run_cycle_loop fuel g 0 = some g := by
  cases fuel <;> simp [GPU.run_cycle_loop]

/-- Unfolding of one iteration of the cycle loop. -/
theorem run_cycle_loop_succ (f : Nat) (g : GPU) (t : Nat) (h : t ≠ 0) :
    GPU.run_cycle_loop (f + 1) g t
      = GPU.run_cycle_loop f (g.process_cycles t).1 (t - (g.process_cycles t).2) := by
  simp [GPU.run_cycle_loop, h]

/-- `process_cycles` in the scanline-advancing case. -/
theorem process_cycles_cross (g : GPU) (t : Nat) (h : 114 ≤ g.render_clock + t) :
    g.process_cycles t
      = (((({ g with render_clock := 0 }).increment_line).render_background),
         (g.render_clock + t - 114) % 256) := by
  unfold GPU.process_cycles
  rw [if_pos h]

/-- `process_cycles` in the accumulating case. -/
theorem process_cycles_acc (g : GPU) (t : Nat) (h : g.render_clock + t < 114) :
    g.process_cycles t = ({ g with render_clock := g.render_clock + t }, t % 256) := by
  unfold GPU.process_cycles
  rw [if_neg (by omega)]

/-- With an empty render clock and a budget of at least 114 (and at most
255, the range of the `u8` argument), the `run_cycle` loop never
terminates: every iteration reports 0 used cycles and leaves the clock
empty. -/
theorem run_cycle_loop_diverges (fuel : Nat) :
    ∀ (g : GPU) (t : Nat), 114 ≤ t → t ≤ 255 → g.render_clock = 0 →
      GPU.run_cycle_loop fuel g t = none := by
  induction fuel with
  | zero =>
      intro g t h1 _ _
      have ht : ¬ t = 0 := by omega
      simp [GPU.run_cycle_loop, ht]
  | succ f ih =>
      intro g t h1 h2 h3
      have ht : t ≠ 0 := by omega
      have hcross : 114 ≤ g.render_clock + t := by omega
      have hused : (g.process_cycles t).2 = t - 114 := by
        rw [process_cycles_cross g t hcross, h3]
        show (0 + t - 114) % 256 = t - 114
        rw [Nat.zero_add]
        exact Nat.mod_eq_of_lt (by omega)
      have hst : (g.process_cycles t).1.render_clock = 0 := by
        rw [process_cycles_cross g t hcross]
        show ((({ g with render_clock := 0 }).increment_line).render_background).render_clock = 0
        rw [GPU.render_background_render_clock, GPU.increment_line_render_clock]
      rw [run_cycle_loop_succ f g t ht, hused]
      exact ih _ _ (by omega) (by omega) hst

/-!
Concrete states used by the per-claim evaluations and witnesses.
-/

/-- A freshly constructed GPU moved to line 150 (display enabled, empty
render clock), used as a concrete input. -/
def g150 : GPU := { GPU.new with ly := 150 }

/-- The palette derivation as the spec words it: split the byte into four
2-bit groups at bit offsets 0, 2, 4, 6 and map each group value through
0 ↦ 255, 1 ↦ 192, 2 ↦ 96, other ↦ 0.  (Definition written from the spec,
for comparison against the source's `build_palette_map`.) -/
def spec_color_of_group (grp : Nat) : Nat :=
  if grp = 0 then 255 else if grp = 1 then 192 else if grp = 2 then 96 else 0

/-- The four 2-bit groups of the palette byte, per the spec's words. -/
def spec_palette_map (p : Nat) : List Nat :=
  [ spec_color_of_group (p % 4),
    spec_color_of_group ((p >>> 2) % 4),
    spec_color_of_group ((p >>> 4) % 4),
    spec_color_of_group ((p >>> 6) % 4) ]

/-- C2: the claim says `run_cycle` terminates for every cycle count up to
255, in particular for exactly 114 cycles with an empty render clock.  The
code disagrees: with the display on and `render_clock = 0`, `run_cycle 114`
never returns — `process_cycles` reports `render_clock + cycles - 114 = 0`
used cycles, so the loop repeats forever with the same budget (the model
returns `none` for every fuel bound). -/
theorem C2_run_cycle_114_diverges (fuel : Nat) (g : GPU)
    (hlcd : g.is_lcd_on = true) (hclk : g.render_clock = 0) :
    g.run_cycle fuel 114 = none := by
  unfold GPU.run_cycle
  rw [if_pos hlcd]
  exact run_cycle_loop_diverges fuel g 114 (by omega) (by omega) hclk

/-- Witness for C2: the freshly constructed GPU (LCD control 0x91, render
clock 0) with a budget of 114 cycles never finishes, at fuel bound 40. -/
theorem C2_run_cycle_114_diverges_witness :
    GPU.new.is_lcd_on = true ∧ GPU.new.render_clock = 0 ∧
      GPU.new.run_cycle 40 114 = none :=
  ⟨rfl, rfl, C2_run_cycle_114_diverges 40 GPU.new rfl rfl⟩

/-- C3: the claim says the cached palette map splits the byte into 2-bit
groups and maps them through 0 ↦ 255, 1 ↦ 192, 2 ↦ 96, other ↦ 0, so that
0b11100100 yields [255, 192, 96, 0].  The code masks with the *hex* literal
0x11 and matches the group against hex 0x10, so for 0b11100100 (= 0xE4) it
caches [255, 0, 255, 0] instead; writing 0xE4 through the 0xFF47 register
path caches that same wrong map. -/
theorem C3_palette_map_eval :
    build_palette_map 0xE4 = [255, 0, 255, 0] ∧
    spec_palette_map 0xE4 = [255, 192, 96, 0] ∧
    build_palette_map 0xE4 ≠ spec_palette_map 0xE4 ∧
    (GPU.new.write_control 0xFF47 0xE4).map GPU.bg_palette_map
      = .ok [255, 0, 255, 0] :=
  ⟨by decide, by decide, by decide, rfl⟩

/-- C5 counterexample: reading control address 0xFF45 panics
(`panic!` in src/gpu.rs line 92) — there is no recoverable error value. -/
theorem C5_control_crash_counterexample :
    GPU.new.read_control 0xFF45 = .crash "Unknown GPU control read operation" :=
  rfl

/-- C5 (amended): within the display-register block 0xFF40-0xFF4B, control
reads and writes panic exactly at the out-of-table addresses 0xFF45 and
0xFF46; every other address in the block returns or stores normally. -/
theorem C5_control_error_amended (g : GPU) (a v : Nat)
    (h1 : 0xFF40 ≤ a) (h2 : a ≤ 0xFF4B) :
    ((∃ msg, g.read_control a = .crash msg) ↔ (a = 0xFF45 ∨ a = 0xFF46)) ∧
    ((∃ msg, g.write_control a v = .crash msg) ↔ (a = 0xFF45 ∨ a = 0xFF46)) := by
  interval_cases a <;> simp [GPU.read_control, GPU.write_control]

/-- Witness for C5 (amended), at the concrete address 0xFF45. -/
theorem C5_control_error_amended_witness :
    (0xFF40 ≤ (0xFF45 : Nat) ∧ (0xFF45 : Nat) ≤ 0xFF4B) ∧
    ((∃ msg, GPU.new.read_control 0xFF45 = .crash msg)
      ↔ ((0xFF45 : Nat) = 0xFF45 ∨ (0xFF45 : Nat) = 0xFF46)) :=
  ⟨by decide, (C5_control_error_amended GPU.new 0xFF45 0 (by decide) (by decide)).1⟩

/-- C6 counterexample: a cartridge-RAM read at 0xA000 panics
(`panic!` in src/mmu.rs line 45) — no recoverable error value is returned. -/
theorem C6_cart_ram_crash_counterexample :
    MMU.new0.read_byte 0xA000 = .crash "MMU ERROR: Load from cart RAM not implemented" :=
  rfl

/-- C6 (amended): every access in 0xA000-0xBFFF panics the process with an
"MMU ERROR" message instead of reporting a recoverable error value. -/
theorem C6_cart_ram_crash_amended (m : MMU) (a v : Nat)
    (h1 : 0xA000 ≤ a) (h2 : a ≤ 0xBFFF) :
    m.read_byte a = .crash "MMU ERROR: Load from cart RAM not implemented" ∧
    m.write_byte a v = .crash "MMU ERROR: Write to cart RAM not implemented" := by
  constructor
  · unfold MMU.read_byte
    rw [if_neg (show ¬ a ≤ 0x7FFF by omega), if_neg (show ¬ a ≤ 0x9FFF by omega),
        if_pos (show a ≤ 0xBFFF by omega)]
  · unfold MMU.write_byte
    rw [if_neg (show ¬ a ≤ 0x7FFF by omega), if_neg (show ¬ a ≤ 0x9FFF by omega),
        if_pos (show a ≤ 0xBFFF by omega)]

/-- Witness for C6 (amended), at the concrete address 0xA000. -/
theorem C6_cart_ram_crash_amended_witness :
    (0xA000 ≤ (0xA000 : Nat) ∧ (0xA000 : Nat) ≤ 0xBFFF) ∧
    MMU.new0.write_byte 0xA000 7
      = .crash "MMU ERROR: Write to cart RAM not implemented" :=
  ⟨by decide, (C6_cart_ram_crash_amended MMU.new0 0xA000 7 (by decide) (by decide)).2⟩

/-- C7 counterexample: the sprite-table accessor masks the address with
0xFF although the table has only 160 entries, so address 0xFEA0 (low byte
0xA0) indexes out of bounds and panics, contrary to the claim that the
masking keeps every access in bounds. -/
theorem C7_oam_out_of_bounds_counterexample :
    GPU.new.read_oam 0xFEA0 = .crash "index out of bounds" :=
  rfl

/-- C7 (amended): the video-memory accessors mask with 0x1FFF into the
0x2000-byte region and never panic for any address; the sprite-table
accessors mask with 0xFF, which keeps the access in bounds (and panic-free)
exactly when the masked low byte is below 0xA0. -/
theorem C7_accessor_bounds_amended (g : GPU) (a v : Nat) :
    (∃ x, g.read_video_ram a = .ok x) ∧ (∃ g2, g.write_video_ram a v = .ok g2) ∧
    ((∃ x, g.read_oam a = .ok x) ↔ a &&& 0xFF < 0xA0) ∧
    ((∃ g2, g.write_oam a v = .ok g2) ↔ a &&& 0xFF < 0xA0) := by
  have hv : a &&& 0x1FFF < VIDEO_RAM_SIZE :=
    lt_of_le_of_lt (Nat.and_le_right) (by norm_num [VIDEO_RAM_SIZE])
  refine ⟨⟨g.video_ram (a &&& 0x1FFF), ?_⟩,
    ⟨{ g with video_ram := upd g.video_ram (a &&& 0x1FFF) v }, ?_⟩, ?_, ?_⟩
  · unfold GPU.read_video_ram
    rw [if_pos hv]
  · unfold GPU.write_video_ram
    rw [if_pos hv]
  · unfold GPU.read_oam
    split_ifs with h <;> simp [GPU.OAM_SIZE] at h ⊢ <;> omega
  · unfold GPU.write_oam
    split_ifs with h <;> simp [GPU.OAM_SIZE] at h ⊢ <;> omega

/-- C10: every address in the three fallthrough ranges 0xFEA0-0xFF00,
0xFF03-0xFF3F and 0xFF4C-0xFF7F reads as 0 and ignores writes (the machine
state is returned unchanged), with no panic. -/
theorem C10_fallthrough_defaults (m : MMU) (a v : Nat)
    (h : (0xFEA0 ≤ a ∧ a ≤ 0xFF00) ∨ (0xFF03 ≤ a ∧ a ≤ 0xFF3F) ∨
         (0xFF4C ≤ a ∧ a ≤ 0xFF7F)) :
    m.read_byte a = .ok 0 ∧ m.write_byte a v = .ok m := by
  constructor
  · unfold MMU.read_byte
    rw [if_neg (show ¬ a ≤ 0x7FFF by omega), if_neg (show ¬ a ≤ 0x9FFF by omega),
        if_neg (show ¬ a ≤ 0xBFFF by omega), if_neg (show ¬ a ≤ 0xFDFF by omega),
        if_neg (show ¬ a ≤ 0xFE9F by omega),
        if_neg (show ¬ (0xFF01 ≤ a ∧ a ≤ 0xFF02) by omega),
        if_neg (show ¬ (0xFF40 ≤ a ∧ a ≤ 0xFF4B) by omega),
        if_neg (show ¬ (0xFF80 ≤ a ∧ a ≤ 0xFFFF) by omega)]
  · unfold MMU.write_byte
    rw [if_neg (show ¬ a ≤ 0x7FFF by omega), if_neg (show ¬ a ≤ 0x9FFF by omega),
        if_neg (show ¬ a ≤ 0xBFFF by omega), if_neg (show ¬ a ≤ 0xFDFF by omega),
        if_neg (show ¬ a ≤ 0xFE9F by omega),
        if_neg (show ¬ (0xFF01 ≤ a ∧ a ≤ 0xFF02) by omega),
        if_neg (show ¬ (0xFF40 ≤ a ∧ a ≤ 0xFF4B) by omega),
        if_neg (show ¬ (0xFF80 ≤ a ∧ a ≤ 0xFFFF) by omega)]

/-- Witness for C10, at the concrete unmapped address 0xFF00. -/
theorem C10_fallthrough_defaults_witness :
    ((0xFEA0 ≤ (0xFF00 : Nat) ∧ (0xFF00 : Nat) ≤ 0xFF00) ∨
      (0xFF03 ≤ (0xFF00 : Nat) ∧ (0xFF00 : Nat) ≤ 0xFF3F) ∨
      (0xFF4C ≤ (0xFF00 : Nat) ∧ (0xFF00 : Nat) ≤ 0xFF7F)) ∧
    MMU.new0.read_byte 0xFF00 = .ok 0 ∧ MMU.new0.write_byte 0xFF00 5 = .ok MMU.new0 :=
  ⟨by decide, C10_fallthrough_defaults MMU.new0 0xFF00 5 (by decide)⟩

/-- C1: the claim says a cycle sequence summing to S = k * 114 (display
enabled) advances LY by exactly S / 114 modulo 154.  The code disagrees:
four calls of 57 cycles each (S = 228, so the claim predicts 2 advances,
here 150 ↦ 152) advance LY three times, because the value
`render_clock + cycles - 114` that `process_cycles` reports as used is the
remainder, not the 114 consumed cycles, so each 57-cycle tail is replayed
into the next accumulation. -/
theorem C1_line_advance_eval :
    ((((g150.run_cycle 10 57).bind (fun g => g.run_cycle 10 57)).bind
        (fun g => g.run_cycle 10 57)).bind (fun g => g.run_cycle 10 57)).map GPU.ly
      = some 153 ∧
    (150 + (57 + 57 + 57 + 57) / 114) % 154 = 152 ∧ (153 : Nat) ≠ 152 :=
  ⟨rfl, by norm_num, by norm_num⟩

/-- A freshly constructed GPU with LCD-control bit 4 cleared (tile data at
0x8800), used as a concrete input. -/
def gpu8800 : GPU := { GPU.new with lcd_control := 0x81 }

/-- C8: tile-data address resolution.  With LCD-control bit 4 set the tile
address is 0x8000 + t * 16 (unsigned); with bit 4 clear it is
0x8800 + ((t as signed 8-bit) + 128) * 16, i.e. 0x8800 + (t + 128) * 16
for t < 128 and 0x8800 + (t - 128) * 16 for t ≥ 128 — so index 0 resolves
to 0x8000 resp. 0x9000, index 255 to 0x8FF0, and index 128 to 0x8800. -/
theorem C8_tile_addressing (g : GPU) (t : Nat) (ht : t ≤ 255) :
    (g.lcd_control &&& 0x10 > 0 → g.tile_addr t = 0x8000 + t * 16) ∧
    (g.lcd_control &&& 0x10 = 0 →
      g.tile_addr t = 0x8800 + (if t < 128 then t + 128 else t - 128) * 16) := by
  constructor
  · intro h
    unfold GPU.tile_addr GPU.bg_tile_data_addr tile_addr_offset
    rw [if_pos h, if_pos rfl]
  · intro h
    unfold GPU.tile_addr GPU.bg_tile_data_addr tile_addr_offset
    rw [if_neg (by omega), if_neg (by norm_num)]
    split_ifs with h2 <;> omega

/-- Witness for C8 at tile indices 255 (0x8000 mode) and 128 (0x8800
mode). -/
theorem C8_tile_addressing_witness :
    GPU.new.lcd_control &&& 0x10 > 0 ∧ gpu8800.lcd_control &&& 0x10 = 0 ∧
    GPU.new.tile_addr 255 = 0x8000 + 255 * 16 ∧
    gpu8800.tile_addr 128 = 0x8800 + (if (128 : Nat) < 128 then 128 + 128 else 128 - 128) * 16 :=
  ⟨by decide, by decide,
   (C8_tile_addressing GPU.new 255 (by decide)).1 (by decide),
   (C8_tile_addressing gpu8800 128 (by decide)).2 (by decide)⟩

/-- A freshly constructed GPU at line 144 with render clock 113, used as a
concrete input. -/
def gC4x : GPU := { GPU.new with ly := 144, render_clock := 113 }

/-- C4 counterexample: from line 144 with render clock 113, a single cycle
crosses into line 145 — not a vertical-blank entry (the interrupt flags
stay 0) — and still hands one more frame to the display channel, so frames
are delivered at line transitions other than the transition into 144 (and
ten times per 154-line cycle, not once). -/
theorem C4_emission_counterexample :
    (gC4x.run_cycle 10 1).map (fun g => (g.ly, g.sent.length, g.interrupt))
      = some (145, 1, 0) :=
  rfl

/-- A terminating `run_cycle` call (entered with the in-range render clock
the engine itself maintains) crosses at most one scanline, so it appends at
most one frame to the channel and never touches frames already
delivered. -/
theorem run_cycle_loop_sends (fuel : Nat) (g : GPU) (t : Nat) (g2 : GPU)
    (ht : t ≤ 255) (hr : g.render_clock < 114)
    (heq : GPU.run_cycle_loop fuel g t = some g2) :
    g2.sent.length ≤ g.sent.length + 1 ∧ g2.sent.take g.sent.length = g.sent := by
  by_cases h0 : t = 0
  · subst h0
    rw [run_cycle_loop_zero_t] at heq
    cases heq
    exact ⟨Nat.le_succ _, List.take_length _⟩
  · cases fuel with
    | zero =>
        rw [show GPU.run_cycle_loop 0 g t = none by simp [GPU.run_cycle_loop, h0]] at heq
        cases heq
    | succ f =>
        rw [run_cycle_loop_succ f g t h0] at heq
        by_cases hc : 114 ≤ g.render_clock + t
        · -- a scanline is crossed on the first iteration
          have hused : (g.process_cycles t).2 = g.render_clock + t - 114 := by
            rw [process_cycles_cross g t hc]
            exact Nat.mod_eq_of_lt (by omega)
          have hclk3 : (g.process_cycles t).1.render_clock = 0 := by
            rw [process_cycles_cross g t hc]
            show ((({ g with render_clock := 0 }).increment_line).render_background).render_clock = 0
            rw [GPU.render_background_render_clock, GPU.increment_line_render_clock]
          have hsent3 : ∃ l : List (Nat → Nat), l.length ≤ 1 ∧
              (g.process_cycles t).1.sent = g.sent ++ l := by
            rw [process_cycles_cross g t hc]
            show ∃ l, l.length ≤ 1 ∧
              ((({ g with render_clock := 0 }).increment_line).render_background).sent
                = g.sent ++ l
            rw [GPU.render_background_sent, GPU.increment_line_sent]
            split_ifs
            · exact ⟨_, by simp, rfl⟩
            · exact ⟨[], by simp, rfl⟩
          by_cases hz : g.render_clock = 0
          · -- would diverge: contradiction with termination
            have h114 : 114 ≤ t := by omega
            have ht' : t - (g.process_cycles t).2 = 114 := by omega
            rw [ht'] at heq
            rw [run_cycle_loop_diverges f _ 114 (by omega) (by omega) hclk3] at heq
            cases heq
          · -- render clock at least 1: the remaining budget is below 114
            obtain ⟨l, hl1, hl2⟩ := hsent3
            have ht' : t - (g.process_cycles t).2 = 114 - g.render_clock := by omega
            rw [ht'] at heq
            have htp1 : 114 - g.render_clock ≠ 0 := by omega
            cases f with
            | zero =>
                rw [show GPU.run_cycle_loop 0 (g.process_cycles t).1 (114 - g.render_clock) = none by
                  simp [GPU.run_cycle_loop, htp1]] at heq
                cases heq
            | succ f2 =>
                rw [run_cycle_loop_succ f2 _ _ htp1] at heq
                rw [process_cycles_acc _ _ (by omega)] at heq
                have hmod : (114 - g.render_clock) % 256 = 114 - g.render_clock :=
                  Nat.mod_eq_of_lt (by omega)
                rw [hmod, Nat.sub_self, run_cycle_loop_zero_t] at heq
                cases heq
                constructor
                · show (g.process_cycles t).1.sent.length ≤ g.sent.length + 1
                  rw [hl2]
                  simp only [List.length_append]
                  omega
                · show (g.process_cycles t).1.sent.take g.sent.length = g.sent
                  rw [hl2]
                  exact List.take_left _ _
        · -- no crossing: the budget is absorbed into the render clock
          rw [process_cycles_acc g t (by omega)] at heq
          rw [Nat.mod_eq_of_lt (by omega : t < 256), Nat.sub_self, run_cycle_loop_zero_t] at heq
          cases heq
          exact ⟨Nat.le_succ _, List.take_length _⟩

/-- C4 (amended): a frame buffer is handed to the display channel at every
line transition into a line in 144..153 — ten per 154-line cycle — not only
at the transition into 144; the vertical-blank interrupt bit is set only on
the transition into 144; a single *terminating* `run_cycle` call appends at
most one frame and never mutates frames already delivered. -/
theorem C4_frame_emission_amended :
    (∀ g : GPU, (g.increment_line).sent
        = g.sent ++ (if 144 ≤ (g.ly + 1) % 154 then [g.next_screen_buffer] else [])) ∧
    (∀ g : GPU, (g.increment_line).interrupt
        = if (g.ly + 1) % 154 = 144 then g.interrupt ||| 0x01 else g.interrupt) ∧
    (∀ (g g2 : GPU) (fuel n : Nat), n ≤ 255 → g.render_clock < 114 →
      g.run_cycle fuel n = some g2 →
      g2.sent.length ≤ g.sent.length + 1 ∧ g2.sent.take g.sent.length = g.sent) := by
  refine ⟨GPU.increment_line_sent, GPU.increment_line_interrupt, ?_⟩
  intro g g2 fuel n hn hr heq
  unfold GPU.run_cycle at heq
  split_ifs at heq with hlcd
  · exact run_cycle_loop_sends fuel g n g2 hn hr heq
  · cases heq
    exact ⟨Nat.le_succ _, List.take_length _⟩

/-- A display-enabled GPU on line 150 with render clock 57, and the state a
57-cycle call produces from it, used as concrete inputs. -/
def gC4w : GPU := { GPU.new with ly := 150, render_clock := 57 }

/-- The state `gC4w.run_cycle 5 57` terminates in: line 151, render clock
57, one frame delivered. -/
def gC4done : GPU :=
  { GPU.new with ly := 151, render_clock := 57, sent := [GPU.new.next_screen_buffer] }

/-- Witness for C4 (amended): the concrete 57-cycle call from `gC4w`
terminates having delivered exactly one frame and kept the (empty) list of
earlier deliveries intact. -/
theorem C4_frame_emission_amended_witness :
    (57 : Nat) ≤ 255 ∧ gC4w.render_clock < 114 ∧
    gC4w.run_cycle 5 57 = some gC4done ∧
    gC4done.sent.length ≤ gC4w.sent.length + 1 ∧
    gC4done.sent.take gC4w.sent.length = gC4w.sent :=
  ⟨by decide, by decide, rfl,
   (C4_frame_emission_amended.2.2 gC4w gC4done 5 57 (by decide) (by decide) rfl).1,
   (C4_frame_emission_amended.2.2 gC4w gC4done 5 57 (by decide) (by decide) rfl).2⟩

/-- Address mask 0x1FFF is reduction modulo 0x2000. -/
theorem and_1FFF_eq_mod (x : Nat) : x &&& 0x1FFF = x % 0x2000 := by
  have h := Nat.and_pow_two_sub_one_eq_mod x 13
  norm_num at h
  exact h

/-- Address mask 0xFF is reduction modulo 0x100. -/
theorem and_FF_eq_mod (x : Nat) : x &&& 0xFF = x % 0x100 := by
  have h := Nat.and_pow_two_sub_one_eq_mod x 8
  norm_num at h
  exact h

/-- Address mask 0x7F is reduction modulo 0x80. -/
theorem and_7F_eq_mod (x : Nat) : x &&& 0x7F = x % 0x80 := by
  have h := Nat.and_pow_two_sub_one_eq_mod x 7
  norm_num at h
  exact h

/-- Little-endian recomposition: the stored low byte `v & 0xFF` and high
byte `(v >> 8) as u8` reassemble to every 16-bit value `v`. -/
theorem low_high_recompose (v : Nat) (hv : v ≤ 0xFFFF) :
    (v &&& 0xFF) ||| (((v >>> 8) % 256) <<< 8) = v := by
  have h2 : v >>> 8 = v / 256 := by
    rw [Nat.shiftRight_eq_div_pow]
  have h4 := Nat.mul_add_lt_is_or (show v % 256 < 2 ^ 8 from Nat.mod_lt v (by norm_num)) (v / 256)
  norm_num at h4
  rw [and_FF_eq_mod, h2, Nat.mod_eq_of_lt (show v / 256 < 256 by omega), Nat.shiftLeft_eq]
  norm_num
  rw [Nat.lor_comm, Nat.mul_comm, ← h4]
  omega

/-- C9 counterexample: at the even, unmapped address 0xFEA0 the write is
silently discarded and the read returns 0, so `write_word` followed by
`read_word` yields 0, not the written value 1. -/
theorem C9_roundtrip_counterexample :
    (MMU.new0.write_word 0xFEA0 1).bind (fun m1 => m1.read_word 0xFEA0) = .ok 0 ∧
    (0xFEA0 : Nat) % 2 = 0 ∧ (0 : Nat) ≠ 1 :=
  ⟨rfl, rfl, by decide⟩

/-- C9 (amended): for every 16-bit value and every even address whose two
bytes both land in writable-and-readable storage — ROM 0x0000-0x7FFF with
both bytes inside the loaded image (ROM is writable in this code), video
RAM 0x8000-0x9FFF, working RAM 0xC000-0xFDFF, sprite table 0xFE00-0xFE9F,
zero-page RAM 0xFF80-0xFFFF, or one of the paired control registers 0xFF40,
0xFF42, 0xFF48, 0xFF4A — `write_word` stores the low byte at the address
and the high byte right above it, and `read_word` at the same address
returns exactly the written value (little-endian round trip).  The
counterexample shows the round trip failing at the even unmapped address
0xFEA0, where the write is discarded and the read returns the fallthrough
constant 0. -/
theorem C9_word_roundtrip_amended (m : MMU) (a v : Nat)
    (hv : v ≤ 0xFFFF) (hpar : a % 2 = 0)
    (hreg : (a + 1 ≤ 0x7FFF ∧ a + 1 < m.rom.length) ∨
            (0x8000 ≤ a ∧ a + 1 ≤ 0x9FFF) ∨ (0xC000 ≤ a ∧ a + 1 ≤ 0xFDFF) ∨
            (0xFE00 ≤ a ∧ a + 1 ≤ 0xFE9F) ∨ (0xFF80 ≤ a ∧ a + 1 ≤ 0xFFFF) ∨
            (a = 0xFF40 ∨ a = 0xFF42 ∨ a = 0xFF48 ∨ a = 0xFF4A)) :
    ∃ m2, m.write_word a v = .ok m2 ∧ m2.read_word a = .ok v := by
  rcases hreg with ⟨h1, h2⟩ | ⟨h1, h2⟩ | ⟨h1, h2⟩ | ⟨h1, h2⟩ | ⟨h1, h2⟩ | hctl
  · -- ROM (writable in this source: `self.rom[addr] = value`)
    refine ⟨{ m with rom := (m.rom.set a (v &&& 0xFF)).set (a + 1) ((v >>> 8) % 256) }, ?_, ?_⟩
    · unfold MMU.write_word MMU.write_byte
      rw [if_pos (show a ≤ 0x7FFF by omega), if_pos (show a < m.rom.length by omega)]
      simp only [PResult.bind]
      rw [if_pos (show a + 1 ≤ 0x7FFF by omega),
          if_pos (show a + 1 < (m.rom.set a (v &&& 0xFF)).length by
            rw [List.length_set]; omega)]
    · unfold MMU.read_word MMU.read_byte
      dsimp only
      have hg1 : ∀ h3, ((m.rom.set a (v &&& 0xFF)).set (a + 1) ((v >>> 8) % 256)).get ⟨a, h3⟩
          = v &&& 0xFF := by
        intro h3
        rw [List.get_eq_getElem, List.getElem_set_ne (show a + 1 ≠ a by omega),
            List.getElem_set_self]
      have hg2 : ∀ h3, ((m.rom.set a (v &&& 0xFF)).set (a + 1) ((v >>> 8) % 256)).get ⟨a + 1, h3⟩
          = (v >>> 8) % 256 := by
        intro h3
        rw [List.get_eq_getElem, List.getElem_set_self]
      rw [if_pos (show a ≤ 0x7FFF by omega),
          dif_pos (show a < ((m.rom.set a (v &&& 0xFF)).set (a + 1) ((v >>> 8) % 256)).length by
            rw [List.length_set, List.length_set]; omega)]
      simp only [PResult.bind]
      rw [if_pos (show a + 1 ≤ 0x7FFF by omega),
          dif_pos (show a + 1 < ((m.rom.set a (v &&& 0xFF)).set (a + 1) ((v >>> 8) % 256)).length by
            rw [List.length_set, List.length_set]; omega)]
      simp only [PResult.bind]
      rw [hg1, hg2, low_high_recompose v hv]
  · -- video RAM
    have hb1 : a &&& 0x1FFF < VIDEO_RAM_SIZE :=
      lt_of_le_of_lt Nat.and_le_right (by norm_num [VIDEO_RAM_SIZE])
    have hb2 : (a + 1) &&& 0x1FFF < VIDEO_RAM_SIZE :=
      lt_of_le_of_lt Nat.and_le_right (by norm_num [VIDEO_RAM_SIZE])
    have hne : a &&& 0x1FFF ≠ (a + 1) &&& 0x1FFF := by
      rw [and_1FFF_eq_mod, and_1FFF_eq_mod]
      omega
    refine ⟨{ m with gpu := { m.gpu with video_ram := upd (upd m.gpu.video_ram (a &&& 0x1FFF) (v &&& 0xFF)) ((a + 1) &&& 0x1FFF) ((v >>> 8) % 256) } }, ?_, ?_⟩
    · unfold MMU.write_word MMU.write_byte GPU.write_video_ram
      rw [if_neg (show ¬ a ≤ 0x7FFF by omega), if_pos (show a ≤ 0x9FFF by omega),
          if_pos hb1]
      simp only [PResult.map, PResult.bind]
      rw [if_neg (show ¬ a + 1 ≤ 0x7FFF by omega), if_pos (show a + 1 ≤ 0x9FFF by omega),
          if_pos hb2]
    · unfold MMU.read_word MMU.read_byte GPU.read_video_ram
      rw [if_neg (show ¬ a ≤ 0x7FFF by omega), if_pos (show a ≤ 0x9FFF by omega)]
      dsimp only
      rw [if_pos hb1]
      simp only [PResult.bind]
      rw [if_neg (show ¬ a + 1 ≤ 0x7FFF by omega), if_pos (show a + 1 ≤ 0x9FFF by omega),
          if_pos hb2]
      simp only [PResult.bind]
      have hwi : upd (upd m.gpu.video_ram (a &&& 0x1FFF) (v &&& 0xFF))
          ((a + 1) &&& 0x1FFF) ((v >>> 8) % 256) (a &&& 0x1FFF) = v &&& 0xFF := by
        simp [upd, hne]
      have hwj : upd (upd m.gpu.video_ram (a &&& 0x1FFF) (v &&& 0xFF))
          ((a + 1) &&& 0x1FFF) ((v >>> 8) % 256) ((a + 1) &&& 0x1FFF) = (v >>> 8) % 256 := by
        simp [upd]
      rw [hwi, hwj, low_high_recompose v hv]
  · -- working RAM
    have hne : a &&& 0x1FFF ≠ (a + 1) &&& 0x1FFF := by
      rw [and_1FFF_eq_mod, and_1FFF_eq_mod]
      omega
    refine ⟨{ m with wram := upd (upd m.wram (a &&& 0x1FFF) (v &&& 0xFF)) ((a + 1) &&& 0x1FFF) ((v >>> 8) % 256) }, ?_, ?_⟩
    · unfold MMU.write_word MMU.write_byte
      rw [if_neg (show ¬ a ≤ 0x7FFF by omega), if_neg (show ¬ a ≤ 0x9FFF by omega),
          if_neg (show ¬ a ≤ 0xBFFF by omega), if_pos (show a ≤ 0xFDFF by omega)]
      simp only [PResult.bind]
      rw [if_neg (show ¬ a + 1 ≤ 0x7FFF by omega), if_neg (show ¬ a + 1 ≤ 0x9FFF by omega),
          if_neg (show ¬ a + 1 ≤ 0xBFFF by omega), if_pos (show a + 1 ≤ 0xFDFF by omega)]
    · unfold MMU.read_word MMU.read_byte
      rw [if_neg (show ¬ a ≤ 0x7FFF by omega), if_neg (show ¬ a ≤ 0x9FFF by omega),
          if_neg (show ¬ a ≤ 0xBFFF by omega), if_pos (show a ≤ 0xFDFF by omega)]
      simp only [PResult.bind]
      rw [if_neg (show ¬ a + 1 ≤ 0x7FFF by omega), if_neg (show ¬ a + 1 ≤ 0x9FFF by omega),
          if_neg (show ¬ a + 1 ≤ 0xBFFF by omega), if_pos (show a + 1 ≤ 0xFDFF by omega)]
      simp only [PResult.bind]
      have hwi : upd (upd m.wram (a &&& 0x1FFF) (v &&& 0xFF))
          ((a + 1) &&& 0x1FFF) ((v >>> 8) % 256) (a &&& 0x1FFF) = v &&& 0xFF := by
        simp [upd, hne]
      have hwj : upd (upd m.wram (a &&& 0x1FFF) (v &&& 0xFF))
          ((a + 1) &&& 0x1FFF) ((v >>> 8) % 256) ((a + 1) &&& 0x1FFF) = (v >>> 8) % 256 := by
        simp [upd]
      rw [hwi, hwj, low_high_recompose v hv]
  · -- sprite table
    have hb1 : a &&& 0xFF < GPU.OAM_SIZE := by
      rw [and_FF_eq_mod]
      simp only [GPU.OAM_SIZE]
      omega
    have hb2 : (a + 1) &&& 0xFF < GPU.OAM_SIZE := by
      rw [and_FF_eq_mod]
      simp only [GPU.OAM_SIZE]
      omega
    have hne : a &&& 0xFF ≠ (a + 1) &&& 0xFF := by
      rw [and_FF_eq_mod, and_FF_eq_mod]
      omega
    refine ⟨{ m with gpu := { m.gpu with oam := upd (upd m.gpu.oam (a &&& 0xFF) (v &&& 0xFF)) ((a + 1) &&& 0xFF) ((v >>> 8) % 256) } }, ?_, ?_⟩
    · unfold MMU.write_word MMU.write_byte GPU.write_oam
      rw [if_neg (show ¬ a ≤ 0x7FFF by omega), if_neg (show ¬ a ≤ 0x9FFF by omega),
          if_neg (show ¬ a ≤ 0xBFFF by omega), if_neg (show ¬ a ≤ 0xFDFF by omega),
          if_pos (show a ≤ 0xFE9F by omega), if_pos hb1]
      simp only [PResult.map, PResult.bind]
      rw [if_neg (show ¬ a + 1 ≤ 0x7FFF by omega), if_neg (show ¬ a + 1 ≤ 0x9FFF by omega),
          if_neg (show ¬ a + 1 ≤ 0xBFFF by omega), if_neg (show ¬ a + 1 ≤ 0xFDFF by omega),
          if_pos (show a + 1 ≤ 0xFE9F by omega), if_pos hb2]
    · unfold MMU.read_word MMU.read_byte GPU.read_oam
      rw [if_neg (show ¬ a ≤ 0x7FFF by omega), if_neg (show ¬ a ≤ 0x9FFF by omega),
          if_neg (show ¬ a ≤ 0xBFFF by omega), if_neg (show ¬ a ≤ 0xFDFF by omega),
          if_pos (show a ≤ 0xFE9F by omega)]
      dsimp only
      rw [if_pos hb1]
      simp only [PResult.bind]
      rw [if_neg (show ¬ a + 1 ≤ 0x7FFF by omega), if_neg (show ¬ a + 1 ≤ 0x9FFF by omega),
          if_neg (show ¬ a + 1 ≤ 0xBFFF by omega), if_neg (show ¬ a + 1 ≤ 0xFDFF by omega),
          if_pos (show a + 1 ≤ 0xFE9F by omega), if_pos hb2]
      simp only [PResult.bind]
      have hwi : upd (upd m.gpu.oam (a &&& 0xFF) (v &&& 0xFF))
          ((a + 1) &&& 0xFF) ((v >>> 8) % 256) (a &&& 0xFF) = v &&& 0xFF := by
        simp [upd, hne]
      have hwj : upd (upd m.gpu.oam (a &&& 0xFF) (v &&& 0xFF))
          ((a + 1) &&& 0xFF) ((v >>> 8) % 256) ((a + 1) &&& 0xFF) = (v >>> 8) % 256 := by
        simp [upd]
      rw [hwi, hwj, low_high_recompose v hv]
  · -- zero-page RAM
    have hne : a &&& 0x7F ≠ (a + 1) &&& 0x7F := by
      rw [and_7F_eq_mod, and_7F_eq_mod]
      omega
    refine ⟨{ m with zram := upd (upd m.zram (a &&& 0x7F) (v &&& 0xFF)) ((a + 1) &&& 0x7F) ((v >>> 8) % 256) }, ?_, ?_⟩
    · unfold MMU.write_word MMU.write_byte
      rw [if_neg (show ¬ a ≤ 0x7FFF by omega), if_neg (show ¬ a ≤ 0x9FFF by omega),
          if_neg (show ¬ a ≤ 0xBFFF by omega), if_neg (show ¬ a ≤ 0xFDFF by omega),
          if_neg (show ¬ a ≤ 0xFE9F by omega),
          if_neg (show ¬ (0xFF01 ≤ a ∧ a ≤ 0xFF02) by omega),
          if_neg (show ¬ (0xFF40 ≤ a ∧ a ≤ 0xFF4B) by omega),
          if_pos (show 0xFF80 ≤ a ∧ a ≤ 0xFFFF by omega)]
      simp only [PResult.bind]
      rw [if_neg (show ¬ a + 1 ≤ 0x7FFF by omega), if_neg (show ¬ a + 1 ≤ 0x9FFF by omega),
          if_neg (show ¬ a + 1 ≤ 0xBFFF by omega), if_neg (show ¬ a + 1 ≤ 0xFDFF by omega),
          if_neg (show ¬ a + 1 ≤ 0xFE9F by omega),
          if_neg (show ¬ (0xFF01 ≤ a + 1 ∧ a + 1 ≤ 0xFF02) by omega),
          if_neg (show ¬ (0xFF40 ≤ a + 1 ∧ a + 1 ≤ 0xFF4B) by omega),
          if_pos (show 0xFF80 ≤ a + 1 ∧ a + 1 ≤ 0xFFFF by omega)]
    · unfold MMU.read_word MMU.read_byte
      rw [if_neg (show ¬ a ≤ 0x7FFF by omega), if_neg (show ¬ a ≤ 0x9FFF by omega),
          if_neg (show ¬ a ≤ 0xBFFF by omega), if_neg (show ¬ a ≤ 0xFDFF by omega),
          if_neg (show ¬ a ≤ 0xFE9F by omega),
          if_neg (show ¬ (0xFF01 ≤ a ∧ a ≤ 0xFF02) by omega),
          if_neg (show ¬ (0xFF40 ≤ a ∧ a ≤ 0xFF4B) by omega),
          if_pos (show 0xFF80 ≤ a ∧ a ≤ 0xFFFF by omega)]
      simp only [PResult.bind]
      rw [if_neg (show ¬ a + 1 ≤ 0x7FFF by omega), if_neg (show ¬ a + 1 ≤ 0x9FFF by omega),
          if_neg (show ¬ a + 1 ≤ 0xBFFF by omega), if_neg (show ¬ a + 1 ≤ 0xFDFF by omega),
          if_neg (show ¬ a + 1 ≤ 0xFE9F by omega),
          if_neg (show ¬ (0xFF01 ≤ a + 1 ∧ a + 1 ≤ 0xFF02) by omega),
          if_neg (show ¬ (0xFF40 ≤ a + 1 ∧ a + 1 ≤ 0xFF4B) by omega),
          if_pos (show 0xFF80 ≤ a + 1 ∧ a + 1 ≤ 0xFFFF by omega)]
      simp only [PResult.bind]
      have hwi : upd (upd m.zram (a &&& 0x7F) (v &&& 0xFF))
          ((a + 1) &&& 0x7F) ((v >>> 8) % 256) (a &&& 0x7F) = v &&& 0xFF := by
        simp [upd, hne]
      have hwj : upd (upd m.zram (a &&& 0x7F) (v &&& 0xFF))
          ((a + 1) &&& 0x7F) ((v >>> 8) % 256) ((a + 1) &&& 0x7F) = (v >>> 8) % 256 := by
        simp [upd]
      rw [hwi, hwj, low_high_recompose v hv]
  · -- paired control registers: 0xFF40/41, 0xFF42/43, 0xFF48/49, 0xFF4A/4B
    obtain rfl | rfl | rfl | rfl := hctl <;>
      exact ⟨_, rfl, by
        show PResult.ok ((v &&& 0xFF) ||| (((v >>> 8) % 256) <<< 8)) = PResult.ok v
        rw [low_high_recompose v hv]⟩

/-- Witness for C9 (amended): the round trip at the even working-RAM
address 0xC000 with value 0x1234. -/
theorem C9_word_roundtrip_amended_witness :
    (0x1234 : Nat) ≤ 0xFFFF ∧ (0xC000 : Nat) % 2 = 0 ∧
    (∃ m2, MMU.new0.write_word 0xC000 0x1234 = .ok m2 ∧
      m2.read_word 0xC000 = .ok 0x1234) :=
  ⟨by decide, by decide,
   C9_word_roundtrip_amended MMU.new0 0xC000 0x1234 (by decide) (by decide)
     (Or.inr (Or.inr (Or.inl (by decide))))⟩
